import Mathlib

/-!
Shallow embedding of `selfdrive/controls/lib/radar_helpers.py`, which
estimates lead-object motion from radar detections (`Track`), fuses grouped
detections (`Cluster`), and provides a vision-only fallback estimate.
Python floats are modelled as exact rationals.  The module-level vision-slot
dictionaries (keyed by `lead_index`, with independent slots) become explicit
per-slot state passing.
-/

namespace RadarHelpers

/-- `_LEAD_ACCEL_TAU = 1.5`: the default acceleration-persistence tau. -/
def LEAD_ACCEL_TAU : ℚ := 3 / 2

/-- `v_ego_stationary = 4.`: no stationary-object flag below this speed. -/
def v_ego_stationary : ℚ := 4

/-- `RADAR_TO_CENTER = 2.7` (marked deprecated in the source). -/
def RADAR_TO_CENTER : ℚ := 27 / 10

/-- `RADAR_TO_CAMERA = 1.52`: radar is ~1.5 m ahead of the mesh frame. -/
def RADAR_TO_CAMERA : ℚ := 152 / 100

/-- Modelled from the spec: `common.numpy_fast.mean` is imported from outside
this fragment; the spec describes each derived attribute as "the arithmetic
mean over `members` of the corresponding LeadFilter field", i.e. the sum of
the values divided by how many there are. -/
def mean (l : List ℚ) : ℚ := l.sum / (l.length : ℚ)

/-- One radar track (`class Track`).  The `KF1D` Kalman filter from
`common.kalman.simple_kalman` is outside this fragment and the spec declares
it a provided primitive, so it is kept abstract here as the state-transition
map `kstep` determined by the shared coefficients `A`, `C`, `K`; it takes the
filter state `kf = (speed, accel)` and a measurement to the next state.
The raw-observation attributes (`dRel` .. `measured`) and the published
`vLeadK`/`aLeadK` are unset in Python until the first `update`; they carry
placeholder values at construction here and no theorem reads them before an
update. -/
structure Track where
  cnt : ℕ
  aLeadTau : ℚ
  kstep : ℚ × ℚ → ℚ → ℚ × ℚ
  kf : ℚ × ℚ
  dRel : ℚ
  yRel : ℚ
  vRel : ℚ
  vLead : ℚ
  measured : Bool
  vLeadK : ℚ
  aLeadK : ℚ

/-- `Track.__init__(v_lead, kalman_params)`: count 0, default tau, filter
state seeded to `[[v_lead], [0.0]]`. -/
def Track.init (v_lead : ℚ) (kstep : ℚ × ℚ → ℚ → ℚ × ℚ) : Track :=
  { cnt := 0, aLeadTau := LEAD_ACCEL_TAU, kstep := kstep, kf := (v_lead, 0),
    dRel := 0, yRel := 0, vRel := 0, vLead := 0, measured := false,
    vLeadK := 0, aLeadK := 0 }

/-- `Track.update(d_rel, y_rel, v_rel, v_lead, measured)`: stores the raw
observation, runs the Kalman step only when `cnt > 0`, publishes the filter
state, adapts the tau, and increments `cnt` last. -/
def Track.update (t : Track) (d_rel y_rel v_rel v_lead : ℚ)
    (measured : Bool) : Track :=
  let kf' := if t.cnt > 0 then t.kstep t.kf v_lead else t.kf
  let vLeadK' := kf'.1
  let aLeadK' := kf'.2
  let aLeadTau' :=
    if abs aLeadK' < 1 / 2 then LEAD_ACCEL_TAU else t.aLeadTau * (9 / 10)
  { t with dRel := d_rel, yRel := y_rel, vRel := v_rel, vLead := v_lead,
           measured := measured, kf := kf', vLeadK := vLeadK',
           aLeadK := aLeadK', aLeadTau := aLeadTau', cnt := t.cnt + 1 }

/-- `Track.get_key_for_cluster()`: y is weighed higher since radar is
inaccurate in that dimension. -/
def Track.get_key_for_cluster (t : Track) : List ℚ :=
  [t.dRel, t.yRel * 2, t.vRel]

/-- `Track.reset_a_lead(aLeadK, aLeadTau)`: rebuilds the filter at state
`[[self.vLead], [aLeadK]]` with the same coefficients and overwrites the
published acceleration and tau.  `cnt` and the raw observation are untouched. -/
def Track.reset_a_lead (t : Track) (aLeadK aLeadTau : ℚ) : Track :=
  { t with kf := (t.vLead, aLeadK), aLeadK := aLeadK, aLeadTau := aLeadTau }

/-- `class Cluster`: a group of tracks believed to be one physical object.
Python keeps a `set`; the embedding keeps the member collection as a list
(the derived attributes below are means and an or, for which only the
multiset of members matters). -/
structure Cluster where
  tracks : List Track

/-- `Cluster.dRel`: mean longitudinal distance. -/
def Cluster.dRel (c : Cluster) : ℚ := mean (c.tracks.map Track.dRel)

/-- `Cluster.yRel`: mean lateral distance. -/
def Cluster.yRel (c : Cluster) : ℚ := mean (c.tracks.map Track.yRel)

/-- `Cluster.vRel`: mean relative velocity. -/
def Cluster.vRel (c : Cluster) : ℚ := mean (c.tracks.map Track.vRel)

/-- `Cluster.vLead`: mean absolute lead velocity. -/
def Cluster.vLead (c : Cluster) : ℚ := mean (c.tracks.map Track.vLead)

/-- `Cluster.vLeadK`: mean filtered lead velocity. -/
def Cluster.vLeadK (c : Cluster) : ℚ := mean (c.tracks.map Track.vLeadK)

/-- `Cluster.aLeadK`: 0 when every member has `cnt <= 1`, otherwise the mean
of `aLeadK` over exactly the members with `cnt > 1`. -/
def Cluster.aLeadK (c : Cluster) : ℚ :=
  if ∀ t ∈ c.tracks, t.cnt ≤ 1 then 0
  else mean ((c.tracks.filter (fun t => decide (1 < t.cnt))).map Track.aLeadK)

/-- `Cluster.aLeadTau`: the default tau when every member has `cnt <= 1`,
otherwise the mean of `aLeadTau` over exactly the members with `cnt > 1`. -/
def Cluster.aLeadTau (c : Cluster) : ℚ :=
  if ∀ t ∈ c.tracks, t.cnt ≤ 1 then LEAD_ACCEL_TAU
  else mean ((c.tracks.filter (fun t => decide (1 < t.cnt))).map Track.aLeadTau)

/-- `Cluster.measured`: logical or of the members' measured flags. -/
def Cluster.measured (c : Cluster) : Bool :=
  c.tracks.any Track.measured

/-- The published lead record (the dict returned by `get_RadarState` and
`get_RadarState_from_vision`). -/
structure RadarState where
  dRel : ℚ
  yRel : ℚ
  vRel : ℚ
  vLead : ℚ
  vLeadK : ℚ
  aLeadK : ℚ
  status : Bool
  fcw : Bool
  modelProb : ℚ
  radar : Bool
  aLeadTau : ℚ

/-- `Cluster.is_potential_fcw(model_prob)`: `model_prob > .9`.  (`self` is
never read.) -/
def Cluster.is_potential_fcw (_c : Cluster) (model_prob : ℚ) : Bool :=
  decide ((9 : ℚ) / 10 < model_prob)

/-- `Cluster.potential_low_speed_lead(v_ego)`: stop for stuff in front of you
at low speed, even without model confirmation. -/
def Cluster.potential_low_speed_lead (c : Cluster) (v_ego : ℚ) : Bool :=
  decide (abs c.yRel < 3 / 2) && decide (v_ego < v_ego_stationary) &&
    decide (c.dRel < 25)

/-- `Cluster.get_RadarState(model_prob)`. -/
def Cluster.get_RadarState (c : Cluster) (model_prob : ℚ) : RadarState :=
  { dRel := c.dRel, yRel := c.yRel, vRel := c.vRel, vLead := c.vLead,
    vLeadK := c.vLeadK, aLeadK := c.aLeadK, status := true,
    fcw := c.is_potential_fcw model_prob, modelProb := model_prob,
    radar := true, aLeadTau := c.aLeadTau }

/-- A vision lead message; only index 0 of each array field is consumed
(nearest point), so the embedding carries those scalars plus the model
confidence `prob`. -/
structure LeadMsg where
  x0 : ℚ
  y0 : ℚ
  v0 : ℚ
  a0 : ℚ
  prob : ℚ

/-- The per-slot vision smoothing state held by the module-level dictionaries
`_vision_lead_aTau`, `_avg_vision_dRel`, `_avg_vision_vLead`,
`_avg_vision_aLead` (one entry per lead slot; the slots are independent, so
a single slot's state is passed explicitly). -/
structure VisionSlot where
  aTau : ℚ
  dRel : ℚ
  vLead : ℚ
  aLead : ℚ

/-- The process-start slot state: zeroed averages and default tau. -/
def VisionSlot.init : VisionSlot :=
  { aTau := LEAD_ACCEL_TAU, dRel := 0, vLead := 0, aLead := 0 }

/-- `Cluster.get_RadarState_from_vision(lead_msg, lead_index, v_ego,
vision_v_ego)`: weighted averaging of the vision samples into the slot state
(mutation of the slot dictionaries becomes returning the updated slot state
alongside the record), tau adaptation, and the vision-derived record.
(`self` is never read.) -/
def get_RadarState_from_vision (s : VisionSlot) (lead_msg : LeadMsg)
    (v_ego vision_v_ego : ℚ) : VisionSlot × RadarState :=
  let corrected_v_lead := lead_msg.v0 - (vision_v_ego - v_ego)
  let dRel' := (s.dRel * 4 + (lead_msg.x0 - RADAR_TO_CAMERA)) / 5
  let vLead' := (s.vLead * 4 + corrected_v_lead) / 5
  let aLead' := (s.aLead * 4 + lead_msg.a0) / 5
  let aTau' :=
    if abs aLead' < 1 / 2 then LEAD_ACCEL_TAU else s.aTau * (9 / 10)
  ({ aTau := aTau', dRel := dRel', vLead := vLead', aLead := aLead' },
   { dRel := dRel', yRel := -lead_msg.y0, vRel := vLead' - v_ego,
     vLead := corrected_v_lead, vLeadK := vLead', aLeadK := aLead',
     status := true, fcw := false, modelProb := lead_msg.prob,
     radar := false, aLeadTau := aTau' })

/-- A concrete established track (`cnt = 2`) used to instantiate theorems on
closed inputs; its Kalman step is the identity on the state. -/
def seasonedTrack : Track :=
  { cnt := 2, aLeadTau := 1, kstep := fun p _ => p, kf := (5, 2),
    dRel := 10, yRel := 1, vRel := -1, vLead := 5, measured := true,
    vLeadK := 5, aLeadK := 2 }

/-- A concrete track seen only once (`cnt = 1`), excluded from the
acceleration-family means. -/
def youngTrack : Track :=
  { cnt := 1, aLeadTau := 9, kstep := fun p _ => p, kf := (3, 7),
    dRel := 20, yRel := -1, vRel := 0, vLead := 3, measured := false,
    vLeadK := 3, aLeadK := 7 }

/-- A concrete track whose Kalman step reports acceleration 1, so an update
leaves the tau in the decaying regime. -/
def decelTrack : Track :=
  { cnt := 1, aLeadTau := LEAD_ACCEL_TAU, kstep := fun _ _ => (0, 1),
    kf := (0, 0), dRel := 0, yRel := 0, vRel := 0, vLead := 0,
    measured := false, vLeadK := 0, aLeadK := 0 }

/-- C1: a track freshly created with lead velocity `v` and updated exactly
once has `cnt = 1`, its filter state is still the constructor's initial guess
`(v, 0)` (the first update performs no Kalman step), so the reported filtered
velocity is `v` and the filtered acceleration is `0`; the raw observation
fields are stored. -/
theorem track_first_update_only_seeds (v d y vr vl : ℚ) (m : Bool)
    (kstep : ℚ × ℚ → ℚ → ℚ × ℚ) :
    ((Track.init v kstep).update d y vr vl m).cnt = 1 ∧
    ((Track.init v kstep).update d y vr vl m).kf = (v, 0) ∧
    ((Track.init v kstep).update d y vr vl m).vLeadK = v ∧
    ((Track.init v kstep).update d y vr vl m).aLeadK = 0 ∧
    ((Track.init v kstep).update d y vr vl m).dRel = d ∧
    ((Track.init v kstep).update d y vr vl m).yRel = y ∧
    ((Track.init v kstep).update d y vr vl m).vRel = vr ∧
    ((Track.init v kstep).update d y vr vl m).vLead = vl ∧
    ((Track.init v kstep).update d y vr vl m).measured = m :=
  ⟨rfl, rfl, rfl, rfl, rfl, rfl, rfl, rfl, rfl⟩

/-- C5: `is_potential_fcw` holds exactly above probability 9/10, is false at
exactly 9/10, and `get_RadarState` publishes it unchanged as `fcw`. -/
theorem fcw_threshold_strict (c : Cluster) (p : ℚ) :
    (c.is_potential_fcw p = true ↔ 9 / 10 < p) ∧
    c.is_potential_fcw (9 / 10) = false ∧
    (c.get_RadarState p).fcw = c.is_potential_fcw p := by
  refine ⟨?_, ?_, rfl⟩
  · simp [Cluster.is_potential_fcw]
  · simp [Cluster.is_potential_fcw]

/-- C6: a vision-derived record always has `fcw = false` and `radar = false`,
its lateral distance is the sign-flipped raw vision lateral value, and its
model probability is the message's confidence unchanged. -/
theorem vision_record_fixed_fields (s : VisionSlot) (msg : LeadMsg)
    (v_ego vision_v_ego : ℚ) :
    (get_RadarState_from_vision s msg v_ego vision_v_ego).2.fcw = false ∧
    (get_RadarState_from_vision s msg v_ego vision_v_ego).2.radar = false ∧
    (get_RadarState_from_vision s msg v_ego vision_v_ego).2.yRel = -msg.y0 ∧
    (get_RadarState_from_vision s msg v_ego vision_v_ego).2.modelProb =
      msg.prob :=
  ⟨rfl, rfl, rfl, rfl⟩

/-- C7: each vision call updates the slot's smoothed distance, velocity and
acceleration by `(old * 4 + sample) / 5`, where the distance sample is
`x0 - RADAR_TO_CAMERA`, the velocity sample is the ego-corrected lead
velocity, and the acceleration sample is the raw vision acceleration; from
the zeroed initial slot one call with sample `X` yields `X / 5`. -/
theorem vision_ema_smoothing (s : VisionSlot) (msg : LeadMsg)
    (v_ego vision_v_ego : ℚ) :
    (get_RadarState_from_vision s msg v_ego vision_v_ego).1.dRel =
      (s.dRel * 4 + (msg.x0 - RADAR_TO_CAMERA)) / 5 ∧
    (get_RadarState_from_vision s msg v_ego vision_v_ego).1.vLead =
      (s.vLead * 4 + (msg.v0 - (vision_v_ego - v_ego))) / 5 ∧
    (get_RadarState_from_vision s msg v_ego vision_v_ego).1.aLead =
      (s.aLead * 4 + msg.a0) / 5 ∧
    (get_RadarState_from_vision VisionSlot.init msg v_ego vision_v_ego).1.dRel =
      (msg.x0 - RADAR_TO_CAMERA) / 5 ∧
    (get_RadarState_from_vision VisionSlot.init msg v_ego vision_v_ego).1.vLead =
      (msg.v0 - (vision_v_ego - v_ego)) / 5 ∧
    (get_RadarState_from_vision VisionSlot.init msg v_ego vision_v_ego).1.aLead =
      msg.a0 / 5 := by
  refine ⟨rfl, rfl, rfl, ?_, ?_, ?_⟩ <;>
    simp [get_RadarState_from_vision, VisionSlot.init]

/-- C10: an empty cluster still has a well-defined derived acceleration 0 and
derived persistence equal to the default tau (the all-members test is
vacuously true over no members). -/
theorem empty_cluster_accel_defaults :
    (Cluster.mk []).aLeadK = 0 ∧
    (Cluster.mk []).aLeadTau = LEAD_ACCEL_TAU := by
  constructor <;> simp [Cluster.aLeadK, Cluster.aLeadTau]

/-- C2: on every track update and every vision call, the post-step tau is the
default tau when the post-step filtered-acceleration magnitude is below 1/2
and the old tau times 9/10 otherwise; positivity of the tau is preserved, and
whenever the magnitude stays at or above 1/2 a (positive-tau) update strictly
decreases the tau. -/
theorem accel_tau_adaptation (t : Track) (d y vr vl : ℚ) (m : Bool)
    (s : VisionSlot) (msg : LeadMsg) (v_ego vision_v_ego : ℚ) :
    ((t.update d y vr vl m).aLeadTau =
      if abs (t.update d y vr vl m).aLeadK < 1 / 2 then LEAD_ACCEL_TAU
      else t.aLeadTau * (9 / 10)) ∧
    (0 < t.aLeadTau → 0 < (t.update d y vr vl m).aLeadTau) ∧
    (0 < t.aLeadTau → 1 / 2 ≤ abs (t.update d y vr vl m).aLeadK →
      (t.update d y vr vl m).aLeadTau < t.aLeadTau) ∧
    ((get_RadarState_from_vision s msg v_ego vision_v_ego).1.aTau =
      if abs (get_RadarState_from_vision s msg v_ego vision_v_ego).1.aLead
          < 1 / 2 then LEAD_ACCEL_TAU
      else s.aTau * (9 / 10)) ∧
    (0 < s.aTau →
      0 < (get_RadarState_from_vision s msg v_ego vision_v_ego).1.aTau) ∧
    (0 < s.aTau →
      1 / 2 ≤ abs (get_RadarState_from_vision s msg v_ego vision_v_ego).1.aLead →
      (get_RadarState_from_vision s msg v_ego vision_v_ego).1.aTau < s.aTau) := by
  have ht : (t.update d y vr vl m).aLeadTau =
      if abs (t.update d y vr vl m).aLeadK < 1 / 2 then LEAD_ACCEL_TAU
      else t.aLeadTau * (9 / 10) := rfl
  have hs : (get_RadarState_from_vision s msg v_ego vision_v_ego).1.aTau =
      if abs (get_RadarState_from_vision s msg v_ego vision_v_ego).1.aLead
          < 1 / 2 then LEAD_ACCEL_TAU
      else s.aTau * (9 / 10) := rfl
  refine ⟨ht, ?_, ?_, hs, ?_, ?_⟩
  · intro hpos
    rw [ht]
    by_cases hK : abs (t.update d y vr vl m).aLeadK < 1 / 2
    · rw [if_pos hK]; norm_num [LEAD_ACCEL_TAU]
    · rw [if_neg hK]; exact mul_pos hpos (by norm_num)
  · intro hpos hK
    rw [ht, if_neg (not_lt.mpr hK)]
    exact mul_lt_of_lt_one_right hpos (by norm_num)
  · intro hpos
    rw [hs]
    by_cases hK : abs (get_RadarState_from_vision s msg v_ego
        vision_v_ego).1.aLead < 1 / 2
    · rw [if_pos hK]; norm_num [LEAD_ACCEL_TAU]
    · rw [if_neg hK]; exact mul_pos hpos (by norm_num)
  · intro hpos hK
    rw [hs, if_neg (not_lt.mpr hK)]
    exact mul_lt_of_lt_one_right hpos (by norm_num)

/-- C2 witness: a concrete update in the decaying regime strictly shrinks the
tau, and a concrete vision call at the default slot state keeps the default
tau when the smoothed acceleration stays small. -/
theorem accel_tau_adaptation_witness :
    (decelTrack.update 0 0 0 0 false).aLeadTau < decelTrack.aLeadTau ∧
    0 < (decelTrack.update 0 0 0 0 false).aLeadTau := by
  have h := accel_tau_adaptation decelTrack 0 0 0 0 false VisionSlot.init
    ⟨0, 0, 0, 0, 0⟩ 0 0
  exact ⟨h.2.2.1 (by norm_num [decelTrack, LEAD_ACCEL_TAU])
      (by norm_num [decelTrack, Track.update]),
    h.2.1 (by norm_num [decelTrack, LEAD_ACCEL_TAU])⟩

/-- C4: `potential_low_speed_lead` holds exactly when the mean lateral
distance has magnitude below 3/2, the ego velocity is strictly below the
stationary threshold 4, and the mean distance is below 25; it is false at ego
velocity exactly 4, and true on a group at lateral distance 1, distance 10,
with ego velocity 2. -/
theorem potential_low_speed_lead_gates (c : Cluster) (v_ego : ℚ) :
    (c.potential_low_speed_lead v_ego = true ↔
      abs c.yRel < 3 / 2 ∧ v_ego < 4 ∧ c.dRel < 25) ∧
    c.potential_low_speed_lead 4 = false ∧
    (Cluster.mk [seasonedTrack]).potential_low_speed_lead 2 = true := by
  refine ⟨?_, ?_, ?_⟩
  · simp [Cluster.potential_low_speed_lead, v_ego_stationary, and_assoc]
  · simp [Cluster.potential_low_speed_lead, v_ego_stationary]
  · simp [Cluster.potential_low_speed_lead, v_ego_stationary, Cluster.yRel,
      Cluster.dRel, mean, seasonedTrack]
    norm_num

/-- C8: `reset_a_lead(a, tau)` reseeds the filter state to the track's
current raw lead velocity paired with `a` and overwrites the tau, while the
update count and every stored raw-observation field are left unchanged. -/
theorem reset_a_lead_frame (t : Track) (a tau : ℚ) (h : 1 ≤ t.cnt) :
    (t.reset_a_lead a tau).kf = (t.vLead, a) ∧
    (t.reset_a_lead a tau).aLeadK = a ∧
    (t.reset_a_lead a tau).aLeadTau = tau ∧
    (t.reset_a_lead a tau).cnt = t.cnt ∧
    (t.reset_a_lead a tau).dRel = t.dRel ∧
    (t.reset_a_lead a tau).yRel = t.yRel ∧
    (t.reset_a_lead a tau).vRel = t.vRel ∧
    (t.reset_a_lead a tau).vLead = t.vLead ∧
    (t.reset_a_lead a tau).measured = t.measured :=
  ⟨rfl, rfl, rfl, rfl, rfl, rfl, rfl, rfl, rfl⟩

/-- C8 witness: the reset frame conditions at a concrete established track. -/
theorem reset_a_lead_frame_witness :
    (seasonedTrack.reset_a_lead 0 (1 / 2)).kf = (seasonedTrack.vLead, 0) ∧
    (seasonedTrack.reset_a_lead 0 (1 / 2)).aLeadK = 0 ∧
    (seasonedTrack.reset_a_lead 0 (1 / 2)).aLeadTau = 1 / 2 ∧
    (seasonedTrack.reset_a_lead 0 (1 / 2)).cnt = seasonedTrack.cnt ∧
    (seasonedTrack.reset_a_lead 0 (1 / 2)).dRel = seasonedTrack.dRel ∧
    (seasonedTrack.reset_a_lead 0 (1 / 2)).yRel = seasonedTrack.yRel ∧
    (seasonedTrack.reset_a_lead 0 (1 / 2)).vRel = seasonedTrack.vRel ∧
    (seasonedTrack.reset_a_lead 0 (1 / 2)).vLead = seasonedTrack.vLead ∧
    (seasonedTrack.reset_a_lead 0 (1 / 2)).measured = seasonedTrack.measured :=
  reset_a_lead_frame seasonedTrack 0 (1 / 2) (by norm_num [seasonedTrack])

/-- C3: in a non-empty cluster, when every member has `cnt <= 1` the derived
acceleration is 0 and the derived tau is the default; otherwise the members
with `cnt > 1` form a non-empty sublist (so no empty mean is taken) and each
derived value is the arithmetic mean — sum over count — of exactly those
members' values. -/
theorem cluster_accel_excludes_young (c : Cluster) (hne : c.tracks ≠ []) :
    ((∀ t ∈ c.tracks, t.cnt ≤ 1) →
      c.aLeadK = 0 ∧ c.aLeadTau = LEAD_ACCEL_TAU) ∧
    (¬ (∀ t ∈ c.tracks, t.cnt ≤ 1) →
      c.tracks.filter (fun t => decide (1 < t.cnt)) ≠ [] ∧
      c.aLeadK =
        ((c.tracks.filter (fun t => decide (1 < t.cnt))).map Track.aLeadK).sum /
        (((c.tracks.filter (fun t => decide (1 < t.cnt))).length : ℚ)) ∧
      c.aLeadTau =
        ((c.tracks.filter (fun t => decide (1 < t.cnt))).map Track.aLeadTau).sum /
        (((c.tracks.filter (fun t => decide (1 < t.cnt))).length : ℚ))) := by
  constructor
  · intro hall
    exact ⟨by simp [Cluster.aLeadK, if_pos hall],
      by simp [Cluster.aLeadTau, if_pos hall]⟩
  · intro hnot
    push_neg at hnot
    obtain ⟨t0, ht0mem, ht0cnt⟩ := hnot
    have hmem : t0 ∈ c.tracks.filter (fun t => decide (1 < t.cnt)) :=
      List.mem_filter.mpr ⟨ht0mem, by simpa using ht0cnt⟩
    have hfilter : c.tracks.filter (fun t => decide (1 < t.cnt)) ≠ [] :=
      List.ne_nil_of_mem hmem
    have hnall : ¬ (∀ t ∈ c.tracks, t.cnt ≤ 1) := by
      intro hall
      exact absurd (hall t0 ht0mem) (by simpa using ht0cnt)
    refine ⟨hfilter, ?_, ?_⟩
    · simp [Cluster.aLeadK, if_neg hnall, mean]
    · simp [Cluster.aLeadTau, if_neg hnall, mean]

/-- C3 witness: in a concrete two-member cluster with one established and one
young member, only the established member contributes to the derived
acceleration and tau. -/
theorem cluster_accel_excludes_young_witness :
    (Cluster.mk [seasonedTrack, youngTrack]).aLeadK = 2 ∧
    (Cluster.mk [seasonedTrack, youngTrack]).aLeadTau = 1 := by
  have hne : (Cluster.mk [seasonedTrack, youngTrack]).tracks ≠ [] := by
    simp [Cluster.mk]
  have hnot : ¬ (∀ t ∈ (Cluster.mk [seasonedTrack, youngTrack]).tracks,
      t.cnt ≤ 1) := by
    intro hall
    exact absurd (hall seasonedTrack (by simp)) (by norm_num [seasonedTrack])
  have h := (cluster_accel_excludes_young
    (Cluster.mk [seasonedTrack, youngTrack]) hne).2 hnot
  refine ⟨?_, ?_⟩
  · rw [h.2.1]
    norm_num [seasonedTrack, youngTrack, List.filter]
  · rw [h.2.2]
    norm_num [seasonedTrack, youngTrack, List.filter]

/-- C9: a cluster with a single member reproduces that member's longitudinal
distance, lateral distance, relative velocity, lead velocity, filtered
velocity and measured flag exactly, and when that member has `cnt > 1` also
its filtered acceleration and tau. -/
theorem singleton_cluster_identity (t : Track) :
    (Cluster.mk [t]).dRel = t.dRel ∧
    (Cluster.mk [t]).yRel = t.yRel ∧
    (Cluster.mk [t]).vRel = t.vRel ∧
    (Cluster.mk [t]).vLead = t.vLead ∧
    (Cluster.mk [t]).vLeadK = t.vLeadK ∧
    (Cluster.mk [t]).measured = t.measured ∧
    (1 < t.cnt →
      (Cluster.mk [t]).aLeadK = t.aLeadK ∧
      (Cluster.mk [t]).aLeadTau = t.aLeadTau) := by
  refine ⟨?_, ?_, ?_, ?_, ?_, ?_, ?_⟩
  · simp [Cluster.dRel, mean]
  · simp [Cluster.yRel, mean]
  · simp [Cluster.vRel, mean]
  · simp [Cluster.vLead, mean]
  · simp [Cluster.vLeadK, mean]
  · simp [Cluster.measured]
  · intro hcnt
    have hnall : ¬ (∀ t' ∈ (Cluster.mk [t]).tracks, t'.cnt ≤ 1) := by
      intro hall
      exact absurd (hall t (by simp)) (by omega)
    constructor
    · simp [Cluster.aLeadK, if_neg hnall, List.filter, hcnt, mean]
    · simp [Cluster.aLeadTau, if_neg hnall, List.filter, hcnt, mean]

/-- C9 witness: the singleton identities at a concrete established track,
whose `cnt = 2` also yields the acceleration-family identities. -/
theorem singleton_cluster_identity_witness :
    (Cluster.mk [seasonedTrack]).dRel = seasonedTrack.dRel ∧
    (Cluster.mk [seasonedTrack]).measured = seasonedTrack.measured ∧
    (Cluster.mk [seasonedTrack]).aLeadK = seasonedTrack.aLeadK ∧
    (Cluster.mk [seasonedTrack]).aLeadTau = seasonedTrack.aLeadTau := by
  have h := singleton_cluster_identity seasonedTrack
  have haccel := h.2.2.2.2.2.2 (by norm_num [seasonedTrack])
  exact ⟨h.1, h.2.2.2.2.2.1, haccel.1, haccel.2⟩

end RadarHelpers
